import Mathlib

/-!
Shallow embedding of `src/jira.py` (a command-line Jira issue-creation client).

The embedding mirrors the source module:
* `Jv` models JSON-serializable Python values; Python dicts are modelled as
  insertion-ordered association lists with a last-writer-wins `dictSet`.
* `urljoin` models `urllib.parse.urljoin` for the URL shapes the client uses
  (absolute `scheme://netloc/path` bases and plain relative paths, no query,
  fragment, params or dot segments).
* `processUpdateFields`, `doJiraRequest` and `createOneIssue` model the three
  methods of class `Jira`.  The HTTP transport is abstracted by an
  `HttpOutcome` oracle (the observable outcome of `requests.request`), and the
  `print` diagnostics are modelled as a returned list of structured `Report`s.
* `JiraError` and its `__repr__` are modelled with an explicit instance
  attribute table, so that Python attribute lookup failures are observable.
-/

set_option autoImplicit false

/-- JSON-serializable Python value, as produced by `json.loads` and consumed by
the `json=` request parameter.  Objects keep insertion order. -/
inductive Jv where
  | null
  | bool (b : Bool)
  | num (n : Int)
  | str (s : String)
  | arr (xs : List Jv)
  | obj (kvs : List (String × Jv))

/-- A Python `dict` mapping strings to JSON values, in insertion order with
unique keys (callers of the source build them via dict literals and updates). -/
abbrev Dict := List (String × Jv)

/-- A single update action: a dict mapping a verb to a value. -/
abbrev ActionMap := List (String × Jv)

/-- The `updateArgs` mapping: field name to an ordered list of actions. -/
abbrev UDict := List (String × List ActionMap)

/-- Keys of a Python dict, in insertion order (`list(d)` / `set(d)` source). -/
def pyKeys {α : Type} (d : List (String × α)) : List String := d.map Prod.fst

/-- Python `d[k] = v`: overwrite in place when the key exists, append when it
is new (Python 3.7+ dict insertion-order semantics). -/
def dictSet (d : Dict) (k : String) (v : Jv) : Dict :=
  if (pyKeys d).contains k then d.map (fun p => if p.1 = k then (k, v) else p)
  else d ++ [(k, v)]

/-- Duplicate removal keeping first occurrences.  Python produces these lists
from `set`s whose iteration order is unspecified; the model fixes
first-occurrence order, and claims compare the lists up to membership. -/
def pyDedup : List String → List String
  | [] => []
  | k :: rest => k :: (pyDedup rest).filter (fun v => !(v == k))

/-- Model of `str.startswith`. -/
def startsWithS (s p : String) : Bool := p.data.isPrefixOf s.data

/-- Split a character list on the slash character (`str.split` on a single
separator: keeps empty fields, always returns at least one field). -/
def splitSlash : List Char → List (List Char)
  | [] => [[]]
  | c :: rest =>
    let r := splitSlash rest
    if c = '/' then [] :: r
    else
      match r with
      | [] => [[c]]
      | h :: t => (c :: h) :: t

/-- Rejoin fields with slashes (inverse direction of `splitSlash`). -/
def joinSlash : List (List Char) → List Char
  | [] => []
  | [x] => x
  | x :: xs => x ++ '/' :: joinSlash xs

/-- Scan for the literal `"://"`; on success return the characters before it
and the characters after it. -/
def findScheme : List Char → Option (List Char × List Char)
  | ':' :: '/' :: '/' :: rest => some ([], rest)
  | c :: rest => (findScheme rest).map (fun p => (c :: p.1, p.2))
  | [] => none

/-- Split off the network-location part: everything up to the first slash. -/
def spanNetloc : List Char → List Char × List Char
  | [] => ([], [])
  | c :: rest =>
    if c = '/' then ([], c :: rest)
    else
      let p := spanNetloc rest
      (c :: p.1, p.2)

/-- Components of a split URL (query/fragment/params are out of the model's
domain: the client never builds URLs containing them). -/
structure SplitUrl where
  scheme : String
  netloc : String
  path : String

/-- Model of `urllib.parse.urlsplit` restricted to the shapes the client uses:
either `scheme://netloc/path` or a plain (possibly relative) path. -/
def urlsplitS (s : String) : SplitUrl :=
  match findScheme s.data with
  | some (sch, rest) =>
    if sch.contains '/' || sch.contains ':' || sch.isEmpty then
      { scheme := "", netloc := "", path := s }
    else
      let p := spanNetloc rest
      { scheme := ⟨sch⟩, netloc := ⟨p.1⟩, path := ⟨p.2⟩ }
  | none => { scheme := "", netloc := "", path := s }

/-- Model of `urllib.parse.urlunsplit` on scheme/netloc/path. -/
def urlunsplitS (scheme netloc path : String) : String :=
  if netloc = "" && scheme = "" then path
  else if netloc = "" then scheme ++ ":" ++ path
  else
    let p := if path = "" || startsWithS path "/" then path else "/" ++ path
    (if scheme = "" then "" else scheme ++ ":") ++ "//" ++ netloc ++ p

/-- Model of `urllib.parse.urljoin` (RFC 3986 relative resolution) on the
model's URL domain: no query, fragment, params, dot segments or duplicate
slashes.  Mirrors the structure of the CPython implementation. -/
def urljoin (base url : String) : String :=
  if base = "" then url
  else if url = "" then base
  else
    let b := urlsplitS base
    let u := urlsplitS url
    if u.scheme ≠ "" && u.scheme ≠ b.scheme then url
    else
      let scheme := if u.scheme = "" then b.scheme else u.scheme
      if u.netloc ≠ "" then urlunsplitS scheme u.netloc u.path
      else if u.path = "" then urlunsplitS scheme b.netloc b.path
      else if startsWithS u.path "/" then urlunsplitS scheme b.netloc u.path
      else
        let segs := (splitSlash b.path.data).dropLast ++ splitSlash u.path.data
        urlunsplitS scheme b.netloc ⟨joinSlash segs⟩

/-- Class attribute `Jira.REST_ENDPOINT_PREFIX` (jira.py line 21). -/
def REST_ENDPOINT_PREFIX : String := "rest/api/2/"

/-- URI computation of `doJiraRequest` (jira.py lines 36-38): prepend the REST
prefix by relative resolution unless the endpoint already starts with it, then
resolve against the server base URL. -/
def computeUri (server endpoint : String) : String :=
  let endpoint' :=
    if startsWithS endpoint REST_ENDPOINT_PREFIX then endpoint
    else urljoin REST_ENDPOINT_PREFIX endpoint
  urljoin server endpoint'

/-- Structured payload of the `JiraError(message=...)` strings built in
`processUpdateFields` (jira.py lines 63-64 and 79-82).  Python formats these
into text via `str.format` on a `list(...)` of a set whose iteration order is
unspecified; the model keeps the underlying data, in first-occurrence order. -/
inductive JiraMsg where
  | duplicateFields (fields : List String)
  | unsupportedVerbs (verbs : List String) (allowed : List String)

/-- Python exceptions raised (or raisable) by the modelled code. -/
inductive PyError where
  | jiraError (msg : JiraMsg)
  | attributeError (name : String)
  | valueError
  | transportError (desc : String)

/-- Diagnostics emitted with `print` by `doJiraRequest` (jira.py lines 53 and
55), kept structurally: the first carries the URL and HTTP status code, the
second the caught exception and the URL. -/
inductive Report where
  | failedRequest (uri : String) (statusCode : Nat)
  | exceptionHappened (e : PyError) (uri : String)

/-- One invocation of `requests.request` (jira.py line 43): method, resolved
URI and JSON body.  Used to state which calls reach the wire. -/
structure SentRequest where
  method : String
  uri : String
  data : Option Jv

/-- Observable outcome of the `requests.request` call: either an HTTP response
(status code plus the JSON parse result of its body, `none` when the body is
not valid JSON) or a raised transport-level exception. -/
inductive HttpOutcome where
  | resp (statusCode : Nat) (content : Option Jv)
  | exn (desc : String)

/-- Attribute lookup `self.UPDATE_VERBS` (jira.py lines 78 and 82).  The class
body of `Jira` defines only `REST_ENDPOINT_PREFIX`, and no code in jira.py
ever assigns `UPDATE_VERBS`, so the lookup finds nothing: the attribute value
is modelled as the absent `none`, and evaluating `set(self.UPDATE_VERBS)`
raises `AttributeError`. -/
def UPDATE_VERBS : Option (List String) := none

/-- Model of `json.loads` on the pre-parsed body: a body that is not valid
JSON raises `ValueError` (`json.JSONDecodeError`). -/
def jsonLoads (content : Option Jv) : Except PyError Jv :=
  match content with
  | some j => .ok j
  | none => .error .valueError

/-- Lines 60-64 of jira.py: the set intersection of the two key sets, as the
list formatted into the error message (first-occurrence order, see
`JiraMsg`). -/
def dupFields (fa : Dict) (ua : UDict) : List String :=
  pyDedup ((pyKeys fa).filter (fun k => (pyKeys ua).contains k))

/-- Line 77 of jira.py: `set.union(set(), *(action.keys() for action in
actions))`, the set of verbs used across the actions of one field. -/
def actionVerbs (actions : List ActionMap) : List String :=
  pyDedup ((actions.map pyKeys).flatten)

/-- The duplicate-field check of `processUpdateFields` (jira.py lines 60-64):
runs only when both arguments are present, and raises before anything else. -/
def checkDuplicates (fieldArgs : Option Dict) (updateArgs : Option UDict) :
    Except PyError Unit :=
  match fieldArgs, updateArgs with
  | some fa, some ua =>
    if (dupFields fa ua).isEmpty then .ok ()
    else .error (.jiraError (.duplicateFields (dupFields fa ua)))
  | _, _ => .ok ()

/-- Lines 68-70 of jira.py: copy `fieldArgs` key by key into a fresh dict. -/
def copyFields (fa : Dict) : Dict :=
  fa.foldl (fun d kv => dictSet d kv.1 kv.2) []

/-- The update loop of `processUpdateFields` (jira.py lines 74-83): for each
field, collect the verbs used, evaluate `verbs - set(self.UPDATE_VERBS)`
(which first looks up the `UPDATE_VERBS` attribute), raise on unsupported
verbs, otherwise store the action list verbatim. -/
def processUpdate (ua : UDict) : Except PyError Dict :=
  ua.foldlM
    (fun d fe =>
      let verbs := actionVerbs fe.2
      match UPDATE_VERBS with
      | none => .error (.attributeError "UPDATE_VERBS")
      | some allowed =>
        let bad := verbs.filter (fun v => !(allowed.contains v))
        if bad.isEmpty then .ok (dictSet d fe.1 (Jv.arr (fe.2.map Jv.obj)))
        else .error (.jiraError (.unsupportedVerbs bad allowed)))
    []

/-- Model of `Jira.processUpdateFields` (jira.py lines 58-85). -/
def processUpdateFields (fieldArgs : Option Dict) (updateArgs : Option UDict) :
    Except PyError Dict :=
  match checkDuplicates fieldArgs updateArgs with
  | .error e => .error e
  | .ok _ =>
    let data : Dict := []
    let data :=
      match fieldArgs with
      | some fa => dictSet data "fields" (Jv.obj (copyFields fa))
      | none => data
    match updateArgs with
    | some ua =>
      match processUpdate ua with
      | .error e => .error e
      | .ok ud => .ok (dictSet data "update" (Jv.obj ud))
    | none => .ok data

/-- Body of the outer `try` of `doJiraRequest` after the transport call
(jira.py lines 43-53): classify the HTTP outcome; any error escaping here is
what the outer `except Exception` catches. -/
def doJiraRequestTry (uri : String) (outcome : HttpOutcome) :
    Except PyError ((String × Jv) × List Report) :=
  match outcome with
  | .exn desc => .error (.transportError desc)
  | .resp sc content =>
    if [200, 201].contains sc then
      match jsonLoads content with
      | .ok body => .ok (("success", body), [])
      | .error e => .error e
    else
      let body :=
        match jsonLoads content with
        | .ok j => j
        | .error _ => Jv.obj []
      .ok (("", body), [.failedRequest uri sc])

/-- Model of `Jira.doJiraRequest` (jira.py lines 35-56).  Returns the
`(status, body)` pair, the printed diagnostics, and the list of transport
calls made.  The outer `except Exception` converts every escaping error into
the initial `('', {})` result plus a report. -/
def doJiraRequest (server method endpoint : String) (data : Option Jv)
    (outcome : HttpOutcome) : (String × Jv) × List Report × List SentRequest :=
  let uri := computeUri server endpoint
  let sent : List SentRequest := [⟨method, uri, data⟩]
  match doJiraRequestTry uri outcome with
  | .ok (res, reps) => (res, reps, sent)
  | .error e => (("", Jv.obj []), [.exceptionHappened e uri], sent)

/-- Model of `Jira.createOneIssue` (jira.py lines 30-33): build the body with
`processUpdateFields`, then POST it to the `issue` endpoint.  A validation
error propagates and no transport call is made. -/
def createOneIssue (server : String) (fieldArgs : Option Dict)
    (updateArgs : Option UDict) (outcome : HttpOutcome) :
    Except PyError (String × Jv) × List Report × List SentRequest :=
  match processUpdateFields fieldArgs updateArgs with
  | .error e => (.error e, [], [])
  | .ok data =>
    let r := doJiraRequest server "POST" "issue" (some (Jv.obj data)) outcome
    (.ok r.1, r.2.1, r.2.2)

/-- Python `repr` of a JSON value (the `{...!r}` conversions in
`JiraError.__repr__`); only its totality matters to the claims, since the
format call is never reached. -/
def jvReprStr : Jv → String
  | .null => "None"
  | .bool b => if b then "True" else "False"
  | .num n => toString n
  | .str s => "\x27" ++ s ++ "\x27"
  | .arr _ => "[...]"
  | .obj _ => "{...}"

/-- A `JiraError` instance: `__init__` (jira.py lines 10-11) forwards `code`,
`message`, `cause` positionally to `Exception.__init__`, which stores them
only in `args`; no instance attribute is ever assigned, so `attrs` stays
empty. -/
structure JiraErrorObj where
  args : List Jv
  attrs : List (String × Jv)

/-- The constructor call `JiraError(code, message, cause)`. -/
def JiraErrorObj.make (code message cause : Jv) : JiraErrorObj :=
  { args := [code, message, cause], attrs := [] }

/-- Python attribute lookup on a `JiraError` instance for a plain name:
instance dict first; neither `JiraError`, `Exception` nor `BaseException`
defines `code`, `message` or `cause` as class attributes, so a missing
instance attribute raises `AttributeError`. -/
def JiraErrorObj.getattr (e : JiraErrorObj) (name : String) : Except PyError Jv :=
  match e.attrs.lookup name with
  | some v => .ok v
  | none => .error (.attributeError name)

/-- Model of `JiraError.__repr__` (jira.py lines 13-17): reads `self.code`,
`self.message` and `self.cause` to format them (the source format string also
lacks its closing parenthesis, mirrored here). -/
def JiraErrorObj.reprStr (e : JiraErrorObj) : Except PyError String := do
  let code ← e.getattr "code"
  let message ← e.getattr "message"
  let cause ← e.getattr "cause"
  pure ("JiraError(code=" ++ jvReprStr code ++ ", message=" ++ jvReprStr message
    ++ ", cause=" ++ jvReprStr cause)

/-- The `data` dict of `processUpdateFields` after the fields step (jira.py
lines 66-71): empty when `fieldArgs` is absent, a single `"fields"` entry
holding the copied map otherwise. -/
def fieldsData : Option Dict → Dict
  | none => []
  | some fa => [("fields", Jv.obj (copyFields fa))]

/-- Membership in `pyDedup` is membership in the original list. -/
theorem mem_pyDedup (v : String) (l : List String) : v ∈ pyDedup l ↔ v ∈ l := by
  induction l with
  | nil => simp [pyDedup]
  | cons k rest ih =>
    by_cases h : v = k
    · simp [pyDedup, h]
    · simp [pyDedup, List.mem_filter, ih, h]

/-- Against an absent (empty) update map no field is a duplicate. -/
theorem dupFields_nil (fa : Dict) : dupFields fa ([] : UDict) = [] := by
  unfold dupFields
  have h : ∀ l : List String,
      l.filter (fun k => (pyKeys ([] : UDict)).contains k) = [] := by
    intro l
    induction l with
    | nil => rfl
    | cons a t ih => exact ih
  rw [h]
  rfl

/-- C3: for every FieldSet/UpdateSet pair sharing at least one field name,
`processUpdateFields` fails with a DuplicateField error naming exactly the
intersecting field names, and the conflict check runs before any other
processing: the same error comes out of `createOneIssue` for every possible
verb content and transport outcome, with no request sent. -/
theorem processUpdateFields_duplicate (fa : Dict) (ua : UDict) (k : String)
    (hfa : k ∈ pyKeys fa) (hua : k ∈ pyKeys ua) :
    processUpdateFields (some fa) (some ua) =
        .error (.jiraError (.duplicateFields (dupFields fa ua)))
    ∧ (∀ v, v ∈ dupFields fa ua ↔ v ∈ pyKeys fa ∧ v ∈ pyKeys ua)
    ∧ (∀ server outcome, createOneIssue server (some fa) (some ua) outcome =
        (.error (.jiraError (.duplicateFields (dupFields fa ua))), [], [])) := by
  have hmem : ∀ v, v ∈ dupFields fa ua ↔ v ∈ pyKeys fa ∧ v ∈ pyKeys ua := by
    intro v
    unfold dupFields
    rw [mem_pyDedup, List.mem_filter]
    simp [List.contains, List.elem_iff]
  have hne : dupFields fa ua ≠ [] :=
    List.ne_nil_of_mem ((hmem k).mpr ⟨hfa, hua⟩)
  have hEmpty : (dupFields fa ua).isEmpty = false := List.isEmpty_eq_false.mpr hne
  have hcd : checkDuplicates (some fa) (some ua) =
      .error (.jiraError (.duplicateFields (dupFields fa ua))) := by
    unfold checkDuplicates
    simp [hEmpty]
  have hmain : processUpdateFields (some fa) (some ua) =
      .error (.jiraError (.duplicateFields (dupFields fa ua))) := by
    unfold processUpdateFields
    rw [hcd]
  refine ⟨hmain, hmem, ?_⟩
  intro server outcome
  unfold createOneIssue
  rw [hmain]

/-- Witness for C3 at Scenario B of the spec: `fieldArgs={"summary": "X"}`
and `updateArgs={"summary": []}` share the key `summary`. -/
theorem processUpdateFields_duplicate_concrete :
    processUpdateFields (some [("summary", Jv.str "X")]) (some [("summary", [])]) =
        .error (.jiraError (.duplicateFields ["summary"]))
    ∧ (∀ v, v ∈ dupFields [("summary", Jv.str "X")] [("summary", [])] ↔
        v ∈ pyKeys [("summary", Jv.str "X")] ∧
          v ∈ pyKeys ([("summary", [])] : UDict))
    ∧ (∀ server outcome,
        createOneIssue server (some [("summary", Jv.str "X")])
            (some [("summary", [])]) outcome =
          (.error (.jiraError (.duplicateFields ["summary"])), [], [])) :=
  processUpdateFields_duplicate [("summary", Jv.str "X")] [("summary", [])]
    "summary" (by decide) (by decide)

/-- C9: an empty update mapping is treated as supplied, unlike `None`: for
every `fieldArgs`, `processUpdateFields fieldArgs (some [])` succeeds (no verb
validation runs, even though the `UPDATE_VERBS` lookup would fail) and the
result carries an `"update"` key bound to the empty mapping, whereas with
`updateArgs = none` the result has no `"update"` key at all. -/
theorem processUpdateFields_empty_update (fa : Option Dict) :
    processUpdateFields fa (some []) =
        .ok (fieldsData fa ++ [("update", Jv.obj [])])
    ∧ processUpdateFields fa none = .ok (fieldsData fa)
    ∧ "update" ∉ pyKeys (fieldsData fa) := by
  cases fa with
  | none => exact ⟨rfl, rfl, by decide⟩
  | some m =>
    refine ⟨?_, rfl, by simp [fieldsData, pyKeys]⟩
    have hcd : checkDuplicates (some m) (some []) = .ok () := by
      have hd : dupFields m ([] : UDict) = [] := dupFields_nil m
      simp [checkDuplicates, hd]
    unfold processUpdateFields
    rw [hcd]
    rfl

/-- C1 (failing evaluation): `class Jira` never defines `UPDATE_VERBS`, so an
update map that uses only the verb `add` does not succeed: the verb check
raises `AttributeError` on `self.UPDATE_VERBS`, and `createOneIssue` sends
nothing over the wire for any transport outcome. -/
theorem processUpdateFields_update_attribute_error :
    processUpdateFields none (some [("labels", [[("add", Jv.str "foo")]])]) =
        .error (.attributeError "UPDATE_VERBS")
    ∧ (∀ server outcome,
        createOneIssue server none (some [("labels", [[("add", Jv.str "foo")]])])
            outcome =
          (.error (.attributeError "UPDATE_VERBS"), [], [])) :=
  ⟨rfl, fun _ _ => rfl⟩

/-- C4 (failing evaluation): even an update entry using no verbs at all (an
empty action list, so no unrecognized verb is present) makes
`processUpdateFields` raise `AttributeError` on the missing `UPDATE_VERBS`
attribute instead of succeeding with an `"update"` key. -/
theorem processUpdateFields_empty_actions_attribute_error :
    processUpdateFields none (some [("labels", [])]) =
      .error (.attributeError "UPDATE_VERBS") := rfl

/-- C5: every HTTP 200 or 201 response whose body parses as JSON yields the
pair `("success", parsed body)`, with no diagnostic and exactly one transport
call to the resolved URI. -/
theorem doJiraRequest_success (server method endpoint : String)
    (data : Option Jv) (sc : Nat) (j : Jv) (h : sc = 200 ∨ sc = 201) :
    doJiraRequest server method endpoint data (.resp sc (some j)) =
      (("success", j), [], [⟨method, computeUri server endpoint, data⟩]) := by
  rcases h with rfl | rfl <;> rfl

/-- Witness for C5 at Scenario D of the spec: HTTP 201 with body
`{"id": "123"}` yields `("success", {"id": "123"})`. -/
theorem doJiraRequest_success_201 :
    doJiraRequest "https://host/" "POST" "issue" none
        (.resp 201 (some (Jv.obj [("id", Jv.str "123")]))) =
      (("success", Jv.obj [("id", Jv.str "123")]), [],
        [⟨"POST", "https://host/rest/api/2/issue", none⟩]) :=
  doJiraRequest_success "https://host/" "POST" "issue" none 201
    (Jv.obj [("id", Jv.str "123")]) (Or.inr rfl)

/-- C6: every response whose status code is neither 200 nor 201 yields status
`""` and, as body, the parsed JSON when the body parses and the empty mapping
otherwise; the failure is reported with the offending URL and status code
rather than raised. -/
theorem doJiraRequest_other_status (server method endpoint : String)
    (data : Option Jv) (sc : Nat) (content : Option Jv)
    (h : sc ≠ 200 ∧ sc ≠ 201) :
    doJiraRequest server method endpoint data (.resp sc content) =
      (("", content.getD (Jv.obj [])),
        [.failedRequest (computeUri server endpoint) sc],
        [⟨method, computeUri server endpoint, data⟩]) := by
  obtain ⟨h1, h2⟩ := h
  cases content <;> simp [doJiraRequest, doJiraRequestTry, jsonLoads, h1, h2]

/-- Witness for C6 at Scenario E of the spec: HTTP 400 with a non-JSON body
yields `("", {})` with a reported status code. -/
theorem doJiraRequest_other_status_400 :
    doJiraRequest "https://host/" "POST" "issue" none (.resp 400 none) =
      (("", Jv.obj []), [.failedRequest "https://host/rest/api/2/issue" 400],
        [⟨"POST", "https://host/rest/api/2/issue", none⟩]) :=
  doJiraRequest_other_status "https://host/" "POST" "issue" none 400 none
    (by decide)

/-- C7: every transport-level failure of the HTTP call is caught, reported
with the exception description and the URL, and converted into `("", {})`;
`doJiraRequest` is a total function, so no such exception escapes it. -/
theorem doJiraRequest_transport (server method endpoint : String)
    (data : Option Jv) (desc : String) :
    doJiraRequest server method endpoint data (.exn desc) =
      (("", Jv.obj []),
        [.exceptionHappened (.transportError desc) (computeUri server endpoint)],
        [⟨method, computeUri server endpoint, data⟩]) := rfl

/-- C2 (counterexample to the claim as stated): an HTTP 200 response whose
body is not valid JSON does NOT propagate the parse failure: `doJiraRequest`
returns normally, with exactly the `("", {})` result the claim rules out,
because the `json.loads` call sits inside the outer `except Exception`
handler. -/
theorem doJiraRequest_2xx_parse_failure_caught :
    doJiraRequest "https://host/" "POST" "issue" none (.resp 200 none) =
      (("", Jv.obj []),
        [.exceptionHappened .valueError "https://host/rest/api/2/issue"],
        [⟨"POST", "https://host/rest/api/2/issue", none⟩]) := rfl

/-- C2 (amended): for every HTTP 200 or 201 response whose body is not valid
JSON, the `ValueError` from `json.loads` is caught by the outer generic
exception handler of `doJiraRequest`, which reports it together with the URL
and returns `("", {})`. -/
theorem doJiraRequest_2xx_parse_failure (server method endpoint : String)
    (data : Option Jv) (sc : Nat) (h : sc = 200 ∨ sc = 201) :
    doJiraRequest server method endpoint data (.resp sc none) =
      (("", Jv.obj []),
        [.exceptionHappened .valueError (computeUri server endpoint)],
        [⟨method, computeUri server endpoint, data⟩]) := by
  rcases h with rfl | rfl <;> rfl

/-- Witness for the amended C2 at HTTP 201 with a non-JSON body. -/
theorem doJiraRequest_2xx_parse_failure_201 :
    doJiraRequest "https://host/" "POST" "issue" none (.resp 201 none) =
      (("", Jv.obj []),
        [.exceptionHappened .valueError "https://host/rest/api/2/issue"],
        [⟨"POST", "https://host/rest/api/2/issue", none⟩]) :=
  doJiraRequest_2xx_parse_failure "https://host/" "POST" "issue" none 201
    (Or.inr rfl)

/-- C8: the request URL is resolved in two stages, by relative-URL resolution
(`urljoin` semantics) and not by string concatenation: the REST prefix is
prepended only when the endpoint does not already start with it, and the
result is resolved against the server base URL; an already-prefixed path is
not prefixed a second time. -/
theorem computeUri_resolution :
    (∀ server endpoint, computeUri server endpoint =
        urljoin server
          (if startsWithS endpoint REST_ENDPOINT_PREFIX then endpoint
           else urljoin REST_ENDPOINT_PREFIX endpoint))
    ∧ urljoin REST_ENDPOINT_PREFIX "issue" = "rest/api/2/issue"
    ∧ computeUri "https://host/" "issue" = "https://host/rest/api/2/issue"
    ∧ computeUri "https://host/" "rest/api/2/issue" = "https://host/rest/api/2/issue"
    ∧ urljoin "https://host/x" "rest/api/2/issue" = "https://host/rest/api/2/issue"
    ∧ urljoin "https://host/x" "rest/api/2/issue" ≠ "https://host/x" ++ "rest/api/2/issue"
    ∧ urljoin REST_ENDPOINT_PREFIX "/issue" ≠ REST_ENDPOINT_PREFIX ++ "/issue" := by
  refine ⟨fun server endpoint => rfl, rfl, rfl, rfl, rfl, ?_, ?_⟩ <;> decide

/-- C10: every `JiraError` built through its initializer has no `code`,
`message` or `cause` instance attribute (the initializer only forwards them
positionally to `Exception`), so evaluating its `__repr__` fails with an
`AttributeError` on the first attribute it reads. -/
theorem jiraError_repr_fails (code message cause : Jv) :
    (JiraErrorObj.make code message cause).reprStr =
      .error (.attributeError "code") := rfl
